import Mathlib

/-!
Verification of the MQTT client worker (ue-app/Source/MQTTClient).

Shallow embedding of the background worker `FMQTTWorker` and the owner-facing
handle `UMQTTClient` from `MQTTClient.cpp` / `MQTTClientWorker.h`.

Modelling conventions:
* The two MPSC queues (`TQueue`) are lists: `Enqueue` appends at the tail,
  the worker's `Dequeue` loop consumes from the head (FIFO).
* Notifications are values of `Notification`; a function that in the C++
  source calls `NotifyConnected` / `NotifyDisconnected` / `NotifyMessageReceived`
  returns the list of notifications it emits, in emission order, paired with
  the updated state.  Notifications returned by an owner-context function
  (`FMQTTWorker.Disconnect`) are therefore emitted synchronously inside that
  owner-context call; notifications returned by `FMQTTWorker.runIteration`
  are emitted on the worker thread.
* `int32` fields carry no arithmetic in the modelled code, so they are `Int`.
* Thread-creation failure (`FRunnableThread::Create` returning null) is a
  platform effect outside the embedded code; the model's `UMQTTClient.Connect`
  takes the successful-start path, matching every reachable behaviour of the
  embedded state.
-/

/-- `FMQTTOutgoing` (MQTTClientWorker.h, lines 36-56): an outgoing publish
request created by owner-context `Publish` calls. -/
structure FMQTTOutgoing where
  Topic : String
  Payload : String
  QoS : Int
  bRetain : Bool
deriving Repr, DecidableEq

/-- `FMQTTSubscriptionRequest` (MQTTClientWorker.h, lines 59-68):
a subscribe (`bSubscribe = true`) or unsubscribe (`bSubscribe = false`) request. -/
structure FMQTTSubscriptionRequest where
  TopicFilter : String
  QoS : Int
  bSubscribe : Bool
deriving Repr, DecidableEq

/-- The three notifications the worker can dispatch to the owner
(`NotifyConnected`, `NotifyDisconnected`, `NotifyMessageReceived`). -/
inductive Notification where
  | Connected : Notification
  | Disconnected (reason : String) : Notification
  | MessageReceived (topic payload : String) : Notification
deriving Repr, DecidableEq

/-- State of `FMQTTWorker` (MQTTClientWorker.h, lines 115-158): connection
target fields, the two FIFO queues, and the control flags. -/
structure FMQTTWorker where
  Host : String
  Port : Int
  bUseTLS : Bool
  Username : String
  Password : String
  ClientId : String
  KeepAliveSeconds : Int
  OutgoingMessages : List FMQTTOutgoing
  SubscriptionRequests : List FMQTTSubscriptionRequest
  bStopRequested : Bool
  bConnected : Bool
  bShutdownComplete : Bool
deriving Repr, DecidableEq

/-- The `FMQTTWorker` constructor (MQTTClient.cpp, lines 221-239): empty
target, port 1883, keep-alive 60, all flags false, queues empty. -/
def freshWorkerState : FMQTTWorker :=
  { Host := ""
    Port := 1883
    bUseTLS := false
    Username := ""
    Password := ""
    ClientId := ""
    KeepAliveSeconds := 60
    OutgoingMessages := []
    SubscriptionRequests := []
    bStopRequested := false
    bConnected := false
    bShutdownComplete := false }

/-- `FMQTTWorker::Connect` (MQTTClient.cpp, lines 400-412): records the
pending target under the mutex, wakes the worker, returns true.  It touches
no other state and emits no notification. -/
def FMQTTWorker.Connect (s : FMQTTWorker) (InHost : String) (InPort : Int)
    (bInUseTLS : Bool) : FMQTTWorker × Bool :=
  ({ s with Host := InHost, Port := InPort, bUseTLS := bInUseTLS }, true)

/-- `FMQTTWorker::Disconnect` (MQTTClient.cpp, lines 414-430): clears the
pending host; if connected, clears `bConnected` and synchronously invokes
`NotifyDisconnected("Client requested disconnect")`.  The `bForce` parameter
is not used by the body. -/
def FMQTTWorker.Disconnect (s : FMQTTWorker) (bForce : Bool) :
    FMQTTWorker × List Notification :=
  let s1 := { s with Host := "" }
  if s1.bConnected then
    ({ s1 with bConnected := false },
      [Notification.Disconnected "Client requested disconnect"])
  else
    (s1, [])

/-- `FMQTTWorker::Publish` (MQTTClient.cpp, lines 432-438): enqueues the
request unmodified onto the outgoing queue and returns true. -/
def FMQTTWorker.Publish (s : FMQTTWorker) (Topic Payload : String) (QoS : Int)
    (bRetain : Bool) : FMQTTWorker × Bool :=
  ({ s with OutgoingMessages :=
      s.OutgoingMessages ++ [⟨Topic, Payload, QoS, bRetain⟩] }, true)

/-- `FMQTTWorker::Subscribe` (MQTTClient.cpp, lines 440-445): enqueues a
subscription request with `bSubscribe = true` and returns true. -/
def FMQTTWorker.Subscribe (s : FMQTTWorker) (TopicFilter : String) (QoS : Int) :
    FMQTTWorker × Bool :=
  ({ s with SubscriptionRequests :=
      s.SubscriptionRequests ++ [⟨TopicFilter, QoS, true⟩] }, true)

/-- `FMQTTWorker::Unsubscribe` (MQTTClient.cpp, lines 447-452): enqueues a
subscription request with QoS 0 and `bSubscribe = false` and returns true. -/
def FMQTTWorker.Unsubscribe (s : FMQTTWorker) (TopicFilter : String) :
    FMQTTWorker × Bool :=
  ({ s with SubscriptionRequests :=
      s.SubscriptionRequests ++ [⟨TopicFilter, 0, false⟩] }, true)

/-- `FMQTTWorker::IsConnected` (MQTTClient.cpp, lines 454-457). -/
def FMQTTWorker.IsConnected (s : FMQTTWorker) : Bool :=
  s.bConnected

/-- `FMQTTWorker::SetClientId` (MQTTClient.cpp, lines 459-463). -/
def FMQTTWorker.SetClientId (s : FMQTTWorker) (InClientId : String) : FMQTTWorker :=
  { s with ClientId := InClientId }

/-- `FMQTTWorker::SetCredentials` (MQTTClient.cpp, lines 465-470). -/
def FMQTTWorker.SetCredentials (s : FMQTTWorker) (InUsername InPassword : String) :
    FMQTTWorker :=
  { s with Username := InUsername, Password := InPassword }

/-- `FMQTTWorker::SetKeepAlive` (MQTTClient.cpp, lines 472-476). -/
def FMQTTWorker.SetKeepAlive (s : FMQTTWorker) (InKeepAliveSeconds : Int) :
    FMQTTWorker :=
  { s with KeepAliveSeconds := InKeepAliveSeconds }

/-- The connect step of a `Run` iteration (MQTTClient.cpp, lines 333-350):
if not connected and the recorded host is non-empty, the stub marks the
worker connected and invokes `NotifyConnected` once.  The stub has no
failure path: it "simply mark[s] as connected (no real network)". -/
def FMQTTWorker.connectAttemptPhase (s : FMQTTWorker) :
    FMQTTWorker × List Notification :=
  if !s.bConnected && !s.Host.isEmpty then
    ({ s with bConnected := true }, [Notification.Connected])
  else
    (s, [])

/-- The outgoing-drain loop of `Run` (MQTTClient.cpp, lines 352-365):
`while (OutgoingMessages.Dequeue(Out))` echoes each dequeued message back via
`NotifyMessageReceived(Out.Topic, Out.Payload)`, unconditionally. -/
def echoOutgoing : List FMQTTOutgoing → List Notification
  | [] => []
  | out :: rest =>
      Notification.MessageReceived out.Topic out.Payload :: echoOutgoing rest

/-- One iteration of the `Run` loop body (MQTTClient.cpp, lines 319-378),
after the wake-wait: the connect step, then the outgoing-queue drain (each
message echoed), then the subscription-queue drain (log only, no
notification).  The stub performs no network receive. -/
def FMQTTWorker.runIteration (s : FMQTTWorker) : FMQTTWorker × List Notification :=
  let (s1, connectNotifs) := s.connectAttemptPhase
  let echoNotifs := echoOutgoing s1.OutgoingMessages
  let s2 := { s1 with OutgoingMessages := [], SubscriptionRequests := [] }
  (s2, connectNotifs ++ echoNotifs)

/-- `n` consecutive iterations of the `Run` loop body, collecting the
notifications emitted across them in order. -/
def FMQTTWorker.runN : Nat → FMQTTWorker → FMQTTWorker × List Notification
  | 0, s => (s, [])
  | n + 1, s =>
      let (s1, ns1) := s.runIteration
      let (s2, ns2) := FMQTTWorker.runN n s1
      (s2, ns1 ++ ns2)

/-- Is this notification the `Connected` event? -/
def Notification.isConnectedEvent : Notification → Bool
  | Notification.Connected => true
  | _ => false

/-- Number of `Connected` notifications in a dispatch list. -/
def countConnected (ns : List Notification) : Nat :=
  (ns.filter Notification.isConnectedEvent).length

/-- The `MessageReceived` notifications of a dispatch list, in order. -/
def messageEvents : List Notification → List Notification :=
  List.filter fun n =>
    match n with
    | Notification.MessageReceived _ _ => true
    | _ => false

/-- State of `UMQTTClient` (MQTTClient.h, lines 135-165): the PIMPL-owned
worker and the cached configuration.  `worker = none` models both "no
`FImpl`" and "`FImpl` with a null `Worker`": in every guard the C++ tests
`Impl && Impl->Worker` as one condition. -/
structure UMQTTClient where
  worker : Option FMQTTWorker
  Broker : String
  Port : Int
  bUseTLS : Bool
  Username : String
  Password : String
  ClientId : String
  KeepAliveSeconds : Int
  bConnected : Bool
deriving Repr, DecidableEq

/-- The `UMQTTClient` constructor (MQTTClient.cpp, lines 63-75): no worker
yet, empty broker, port 1883, keep-alive 60, not connected. -/
def UMQTTClient.new : UMQTTClient :=
  { worker := none
    Broker := ""
    Port := 1883
    bUseTLS := false
    Username := ""
    Password := ""
    ClientId := ""
    KeepAliveSeconds := 60
    bConnected := false }

/-- `UMQTTClient::Connect` (MQTTClient.cpp, lines 77-104): records the
target, lazily creates the worker, pushes client id / credentials /
keep-alive down, then requests the connect and returns true. -/
def UMQTTClient.Connect (c : UMQTTClient) (BrokerAddress : String)
    (BrokerPort : Int) (bInUseTLS : Bool) : UMQTTClient × Bool :=
  let c1 := { c with Broker := BrokerAddress, Port := BrokerPort,
                     bUseTLS := bInUseTLS }
  let w0 :=
    match c1.worker with
    | some w => w
    | none => freshWorkerState
  let w1 := w0.SetClientId c1.ClientId
  let w2 := w1.SetCredentials c1.Username c1.Password
  let w3 := w2.SetKeepAlive c1.KeepAliveSeconds
  let (w4, _accepted) := w3.Connect c1.Broker c1.Port c1.bUseTLS
  ({ c1 with worker := some w4 }, true)

/-- `UMQTTClient::Disconnect` (MQTTClient.cpp, lines 106-112): forwards to
the worker when one exists, otherwise does nothing. -/
def UMQTTClient.Disconnect (c : UMQTTClient) (bForce : Bool) :
    UMQTTClient × List Notification :=
  match c.worker with
  | some w =>
      let (w2, ns) := w.Disconnect bForce
      ({ c with worker := some w2 }, ns)
  | none => (c, [])

/-- `UMQTTClient::Publish` (MQTTClient.cpp, lines 114-121): forwards to the
worker when one exists, otherwise returns false with no state change. -/
def UMQTTClient.Publish (c : UMQTTClient) (Topic Payload : String) (QoS : Int)
    (bRetain : Bool) : UMQTTClient × Bool :=
  match c.worker with
  | some w =>
      let (w2, accepted) := w.Publish Topic Payload QoS bRetain
      ({ c with worker := some w2 }, accepted)
  | none => (c, false)

/-- `UMQTTClient::Subscribe` (MQTTClient.cpp, lines 123-130). -/
def UMQTTClient.Subscribe (c : UMQTTClient) (TopicFilter : String) (QoS : Int) :
    UMQTTClient × Bool :=
  match c.worker with
  | some w =>
      let (w2, accepted) := w.Subscribe TopicFilter QoS
      ({ c with worker := some w2 }, accepted)
  | none => (c, false)

/-- `UMQTTClient::Unsubscribe` (MQTTClient.cpp, lines 132-139). -/
def UMQTTClient.Unsubscribe (c : UMQTTClient) (TopicFilter : String) :
    UMQTTClient × Bool :=
  match c.worker with
  | some w =>
      let (w2, accepted) := w.Unsubscribe TopicFilter
      ({ c with worker := some w2 }, accepted)
  | none => (c, false)

/-- `UMQTTClient::IsConnected` (MQTTClient.cpp, lines 160-168): worker state
when available, local flag otherwise. -/
def UMQTTClient.IsConnected (c : UMQTTClient) : Bool :=
  match c.worker with
  | some w => w.IsConnected
  | none => c.bConnected

/-- `UMQTTClient::BeginDestroy` (MQTTClient.cpp, lines 179-193): shuts the
worker down, deletes it and resets the PIMPL, leaving no worker. -/
def UMQTTClient.BeginDestroy (c : UMQTTClient) : UMQTTClient :=
  { c with worker := none }

/-! ### Helper lemmas -/

theorem countConnected_nil : countConnected [] = 0 := rfl

theorem countConnected_append (a b : List Notification) :
    countConnected (a ++ b) = countConnected a + countConnected b := by
  simp [countConnected, List.filter_append]

theorem countConnected_echoOutgoing (l : List FMQTTOutgoing) :
    countConnected (echoOutgoing l) = 0 := by
  induction l with
  | nil => rfl
  | cons out rest ih =>
      simp [echoOutgoing, countConnected, List.filter_cons,
        Notification.isConnectedEvent] at *
      exact ih

theorem messageEvents_append (a b : List Notification) :
    messageEvents (a ++ b) = messageEvents a ++ messageEvents b := by
  simp [messageEvents, List.filter_append]

theorem messageEvents_echoOutgoing (l : List FMQTTOutgoing) :
    messageEvents (echoOutgoing l) = echoOutgoing l := by
  induction l with
  | nil => rfl
  | cons out rest ih =>
      simp [echoOutgoing, messageEvents, List.filter_cons] at *
      exact ih

theorem echoOutgoing_eq_map (l : List FMQTTOutgoing) :
    echoOutgoing l =
      l.map (fun out => Notification.MessageReceived out.Topic out.Payload) := by
  induction l with
  | nil => rfl
  | cons out rest ih => simp [echoOutgoing, ih]

theorem connectAttemptPhase_fires (s : FMQTTWorker) (h1 : s.bConnected = false)
    (h2 : s.Host.isEmpty = false) :
    s.connectAttemptPhase =
      ({ s with bConnected := true }, [Notification.Connected]) := by
  simp [FMQTTWorker.connectAttemptPhase, h1, h2]

theorem connectAttemptPhase_skips (s : FMQTTWorker)
    (h : s.bConnected = true ∨ s.Host.isEmpty = true) :
    s.connectAttemptPhase = (s, []) := by
  rcases h with h | h <;> simp [FMQTTWorker.connectAttemptPhase, h]

theorem connectAttemptPhase_queue (s : FMQTTWorker) :
    s.connectAttemptPhase.1.OutgoingMessages = s.OutgoingMessages := by
  by_cases h : (!s.bConnected && !s.Host.isEmpty) = true <;>
    simp [FMQTTWorker.connectAttemptPhase, h]

theorem messageEvents_connectAttemptPhase (s : FMQTTWorker) :
    messageEvents s.connectAttemptPhase.2 = [] := by
  by_cases h : (!s.bConnected && !s.Host.isEmpty) = true <;>
    simp [FMQTTWorker.connectAttemptPhase, h, messageEvents, List.filter]

theorem runIteration_fires (s : FMQTTWorker) (h1 : s.bConnected = false)
    (h2 : s.Host.isEmpty = false) :
    s.runIteration =
      ({ s with bConnected := true, OutgoingMessages := [],
                SubscriptionRequests := [] },
        Notification.Connected :: echoOutgoing s.OutgoingMessages) := by
  simp [FMQTTWorker.runIteration, connectAttemptPhase_fires s h1 h2]

theorem runIteration_skips (s : FMQTTWorker)
    (h : s.bConnected = true ∨ s.Host.isEmpty = true) :
    s.runIteration =
      ({ s with OutgoingMessages := [], SubscriptionRequests := [] },
        echoOutgoing s.OutgoingMessages) := by
  simp [FMQTTWorker.runIteration, connectAttemptPhase_skips s h]

theorem runIteration_connected_preserves (s : FMQTTWorker)
    (h : s.bConnected = true) :
    s.runIteration.1.bConnected = true ∧
    countConnected s.runIteration.2 = 0 := by
  rw [runIteration_skips s (Or.inl h)]
  exact ⟨h, countConnected_echoOutgoing s.OutgoingMessages⟩

theorem runN_connected_quiet (n : Nat) (s : FMQTTWorker)
    (h : s.bConnected = true) :
    (FMQTTWorker.runN n s).1.bConnected = true ∧
    countConnected (FMQTTWorker.runN n s).2 = 0 := by
  induction n generalizing s with
  | zero => exact ⟨h, rfl⟩
  | succ n ih =>
      have h1 := runIteration_connected_preserves s h
      have h2 := ih s.runIteration.1 h1.1
      refine ⟨?_, ?_⟩
      · simpa [FMQTTWorker.runN] using h2.1
      · simp [FMQTTWorker.runN, countConnected_append, h1.2, h2.2]

theorem runIteration_empty_host (s : FMQTTWorker) (h : s.Host = "") :
    s.runIteration.1.Host = "" ∧
    s.runIteration.1.bConnected = s.bConnected ∧
    countConnected s.runIteration.2 = 0 := by
  rw [runIteration_skips s (Or.inr (by rw [h]; rfl))]
  exact ⟨h, rfl, countConnected_echoOutgoing s.OutgoingMessages⟩

theorem runN_empty_host (n : Nat) (s : FMQTTWorker) (h : s.Host = "") :
    (FMQTTWorker.runN n s).1.bConnected = s.bConnected ∧
    countConnected (FMQTTWorker.runN n s).2 = 0 := by
  induction n generalizing s with
  | zero => exact ⟨rfl, rfl⟩
  | succ n ih =>
      have h1 := runIteration_empty_host s h
      have h2 := ih s.runIteration.1 h1.1
      refine ⟨?_, ?_⟩
      · simp [FMQTTWorker.runN, h2.1, h1.2.1]
      · simp [FMQTTWorker.runN, countConnected_append, h1.2.2, h2.2]

theorem disconnect_clears (s : FMQTTWorker) (bForce : Bool) :
    (s.Disconnect bForce).1.Host = "" ∧
    (s.Disconnect bForce).1.bConnected = false := by
  by_cases hb : s.bConnected <;> simp [FMQTTWorker.Disconnect, hb]

/-- A sequence of owner-context `Publish` calls applied in submission
order; each tuple is `(Topic, Payload, QoS, bRetain)`. -/
def publishAll (s : FMQTTWorker) :
    List (String × String × Int × Bool) → FMQTTWorker
  | [] => s
  | (t, p, q, r) :: rest => publishAll (s.Publish t p q r).1 rest

/-- The `FMQTTOutgoing` records a sequence of `Publish` calls creates. -/
def toOutgoing : List (String × String × Int × Bool) → List FMQTTOutgoing
  | [] => []
  | (t, p, q, r) :: rest => ⟨t, p, q, r⟩ :: toOutgoing rest

/-- The echo notifications a sequence of `Publish` calls should produce, in
submission order. -/
def submissionEchoes : List (String × String × Int × Bool) → List Notification
  | [] => []
  | (t, p, _, _) :: rest =>
      Notification.MessageReceived t p :: submissionEchoes rest

theorem publishAll_queue (ps : List (String × String × Int × Bool))
    (s : FMQTTWorker) :
    (publishAll s ps).OutgoingMessages = s.OutgoingMessages ++ toOutgoing ps := by
  induction ps generalizing s with
  | nil => simp [publishAll, toOutgoing]
  | cons hd rest ih =>
      obtain ⟨t, p, q, r⟩ := hd
      simp [publishAll, toOutgoing, FMQTTWorker.Publish, ih]

theorem echoOutgoing_toOutgoing (ps : List (String × String × Int × Bool)) :
    echoOutgoing (toOutgoing ps) = submissionEchoes ps := by
  induction ps with
  | nil => rfl
  | cons hd rest ih =>
      obtain ⟨t, p, q, r⟩ := hd
      simp [echoOutgoing, toOutgoing, submissionEchoes, ih]

theorem messageEvents_runIteration (s : FMQTTWorker) :
    messageEvents s.runIteration.2 = echoOutgoing s.OutgoingMessages := by
  by_cases hb : s.bConnected
  · rw [runIteration_skips s (Or.inl hb)]
    exact messageEvents_echoOutgoing s.OutgoingMessages
  · by_cases hh : s.Host.isEmpty
    · rw [runIteration_skips s (Or.inr hh)]
      exact messageEvents_echoOutgoing s.OutgoingMessages
    · rw [runIteration_fires s (by simpa using hb) (by simpa using hh)]
      simpa [messageEvents, List.filter_cons] using
        messageEvents_echoOutgoing s.OutgoingMessages

/-! ### Sample states used by witnesses and counterexamples -/

/-- A worker that recorded the target `127.0.0.1` but has not yet connected,
with one pending publish. -/
def sampleDisconnectedWorker : FMQTTWorker :=
  { freshWorkerState with
      Host := "127.0.0.1"
      OutgoingMessages := [⟨"sensors/temp", "21.5", 0, false⟩] }

/-- A worker in the Connected state with a recorded target. -/
def sampleConnectedWorker : FMQTTWorker :=
  { freshWorkerState with Host := "127.0.0.1", bConnected := true }

/-! ### Claims -/

/-- C1: on a worker-loop iteration where the state is Disconnected
(`bConnected` false) and the recorded host is non-empty, the worker attempts
establishment; the stub's only establishment path succeeds, so the state
transitions to Connected and exactly one Connected notification is fired for
that establishment.  (The claim's failure branch is vacuous: the stub marks
the connection established unconditionally, with no failing path and hence
no retry question.) -/
theorem C1_establishment_fires_one_connected (s : FMQTTWorker)
    (hconn : s.bConnected = false) (hhost : s.Host.isEmpty = false) :
    s.runIteration.1.bConnected = true ∧
    countConnected s.runIteration.2 = 1 := by
  rw [runIteration_fires s hconn hhost]
  refine ⟨rfl, ?_⟩
  simpa [countConnected, List.filter_cons, Notification.isConnectedEvent]
    using countConnected_echoOutgoing s.OutgoingMessages

theorem C1_establishment_fires_one_connected_witness :
    sampleDisconnectedWorker.runIteration.1.bConnected = true ∧
    countConnected sampleDisconnectedWorker.runIteration.2 = 1 :=
  C1_establishment_fires_one_connected sampleDisconnectedWorker rfl rfl

/-- C2: for every sequence of `Publish` calls submitted before the worker
drains the outgoing queue, the drain emits the MessageReceived (echo)
notifications in exactly the submission order (per-queue FIFO). -/
theorem C2_publish_fifo_echo_order (s : FMQTTWorker)
    (h : s.OutgoingMessages = [])
    (ps : List (String × String × Int × Bool)) :
    messageEvents (publishAll s ps).runIteration.2 = submissionEchoes ps := by
  rw [messageEvents_runIteration, publishAll_queue, h, List.nil_append,
    echoOutgoing_toOutgoing]

theorem C2_publish_fifo_echo_order_witness :
    messageEvents (publishAll freshWorkerState
        [("sensors/temp", "21.5", 0, false), ("a/b", "x", 1, true),
         ("c", "y", 2, false)]).runIteration.2 =
      submissionEchoes
        [("sensors/temp", "21.5", 0, false), ("a/b", "x", 1, true),
         ("c", "y", 2, false)] :=
  C2_publish_fifo_echo_order freshWorkerState rfl
    [("sensors/temp", "21.5", 0, false), ("a/b", "x", 1, true),
     ("c", "y", 2, false)]

/-- C3: a `Connect` call while already connected only rewrites the pending
target (host, port, TLS flag), leaves the state Connected, and however many
worker-loop iterations follow, no second establishment attempt occurs and no
further Connected notification fires while the state has not returned to
Disconnected. -/
theorem C3_connect_while_connected_no_second_establishment (s : FMQTTWorker)
    (h : s.bConnected = true) (host : String) (port : Int) (tls : Bool)
    (n : Nat) :
    (s.Connect host port tls).1 =
      { s with Host := host, Port := port, bUseTLS := tls } ∧
    (s.Connect host port tls).1.bConnected = true ∧
    countConnected (FMQTTWorker.runN n (s.Connect host port tls).1).2 = 0 :=
  ⟨rfl, h, (runN_connected_quiet n (s.Connect host port tls).1 h).2⟩

theorem C3_connect_while_connected_no_second_establishment_witness :
    ((sampleConnectedWorker.Connect "10.0.0.2" 8883 true).1 =
      { sampleConnectedWorker with
          Host := "10.0.0.2", Port := 8883, bUseTLS := true } ∧
    (sampleConnectedWorker.Connect "10.0.0.2" 8883 true).1.bConnected = true ∧
    countConnected (FMQTTWorker.runN 3
      (sampleConnectedWorker.Connect "10.0.0.2" 8883 true).1).2 = 0) :=
  C3_connect_while_connected_no_second_establishment sampleConnectedWorker rfl
    "10.0.0.2" 8883 true 3

/-- A worker with no recorded host, not connected, and one message already
queued: the situation claim C4 says must produce no echo. -/
def pendingWhileDisconnectedWorker : FMQTTWorker :=
  { freshWorkerState with
      OutgoingMessages := [⟨"sensors/temp", "21.5", 0, false⟩] }

/-- C4 counterexample: the claim "a message drained while not connected is
not echoed" is false.  `pendingWhileDisconnectedWorker` has an empty host and
is not connected, the connect step leaves it disconnected, and yet the drain
of the same iteration echoes the queued message as MessageReceived: the
drain loop at MQTTClient.cpp lines 352-365 has no connectedness guard. -/
theorem C4_echo_requires_connected_counterexample :
    ¬ (∀ s : FMQTTWorker,
        s.connectAttemptPhase.1.bConnected = false →
        messageEvents s.runIteration.2 = []) := by
  intro hclaim
  have h1 : pendingWhileDisconnectedWorker.connectAttemptPhase.1.bConnected
      = false := by decide
  have h2 := hclaim pendingWhileDisconnectedWorker h1
  have h3 : messageEvents pendingWhileDisconnectedWorker.runIteration.2 =
      [Notification.MessageReceived "sensors/temp" "21.5"] := by decide
  rw [h3] at h2
  cases h2

/-- C4 (amended): every outgoing message drained by the worker loop is
looped back as a MessageReceived notification carrying the identical topic
and payload, in FIFO order, regardless of whether the client is connected at
the time of draining; the drain also empties the queue. -/
theorem C4_drain_always_echoes (s : FMQTTWorker) :
    messageEvents s.runIteration.2 =
      s.OutgoingMessages.map
        (fun out => Notification.MessageReceived out.Topic out.Payload) ∧
    s.runIteration.1.OutgoingMessages = [] := by
  refine ⟨?_, ?_⟩
  · rw [messageEvents_runIteration, echoOutgoing_eq_map]
  · by_cases hb : s.bConnected
    · rw [runIteration_skips s (Or.inl hb)]
    · by_cases hh : s.Host.isEmpty
      · rw [runIteration_skips s (Or.inr hh)]
      · rw [runIteration_fires s (by simpa using hb) (by simpa using hh)]

/-- C5: calling `Disconnect` while connected fires exactly one Disconnected
notification with reason "Client requested disconnect" and `IsConnected`
returns false immediately afterward (the call itself performs the state
change, with no network round-trip in the model); calling `Disconnect` while
not connected fires no Disconnected notification. -/
theorem C5_disconnect_notifies_once_when_connected (s : FMQTTWorker)
    (bForce : Bool) :
    (s.bConnected = true →
      (s.Disconnect bForce).2 =
        [Notification.Disconnected "Client requested disconnect"] ∧
      (s.Disconnect bForce).1.IsConnected = false) ∧
    (s.bConnected = false → (s.Disconnect bForce).2 = []) := by
  constructor
  · intro h
    constructor <;> simp [FMQTTWorker.Disconnect, FMQTTWorker.IsConnected, h]
  · intro h
    simp [FMQTTWorker.Disconnect, h]

theorem C5_disconnect_notifies_once_when_connected_witness :
    ((sampleConnectedWorker.Disconnect false).2 =
        [Notification.Disconnected "Client requested disconnect"] ∧
      (sampleConnectedWorker.Disconnect false).1.IsConnected = false) ∧
    (freshWorkerState.Disconnect false).2 = [] :=
  ⟨(C5_disconnect_notifies_once_when_connected sampleConnectedWorker false).1
      rfl,
    (C5_disconnect_notifies_once_when_connected freshWorkerState false).2 rfl⟩

/-- C6: while the recorded host is empty no establishment occurs: any number
of worker-loop iterations leaves `bConnected` unchanged (in particular a
disconnected worker never becomes Connected) and fires no Connected
notification; and after any `Disconnect` — which clears the host — the
worker is disconnected and stays so, with no Connected notification, over
any number of iterations, until a new `Connect` records a non-empty host. -/
theorem C6_empty_host_no_connection_attempt (s : FMQTTWorker) (n : Nat) :
    (s.Host = "" →
      (FMQTTWorker.runN n s).1.bConnected = s.bConnected ∧
      countConnected (FMQTTWorker.runN n s).2 = 0) ∧
    (∀ bForce : Bool,
      (s.Disconnect bForce).1.Host = "" ∧
      (FMQTTWorker.runN n (s.Disconnect bForce).1).1.bConnected = false ∧
      countConnected (FMQTTWorker.runN n (s.Disconnect bForce).1).2 = 0) := by
  constructor
  · intro h
    exact runN_empty_host n s h
  · intro bForce
    have hc := disconnect_clears s bForce
    have hr := runN_empty_host n (s.Disconnect bForce).1 hc.1
    exact ⟨hc.1, hc.2 ▸ hr.1, hr.2⟩

theorem C6_empty_host_no_connection_attempt_witness :
    (((FMQTTWorker.runN 2 pendingWhileDisconnectedWorker).1.bConnected =
        pendingWhileDisconnectedWorker.bConnected ∧
      countConnected
        (FMQTTWorker.runN 2 pendingWhileDisconnectedWorker).2 = 0) ∧
    ((sampleConnectedWorker.Disconnect true).1.Host = "" ∧
      (FMQTTWorker.runN 2
        (sampleConnectedWorker.Disconnect true).1).1.bConnected = false ∧
      countConnected (FMQTTWorker.runN 2
        (sampleConnectedWorker.Disconnect true).1).2 = 0)) :=
  ⟨(C6_empty_host_no_connection_attempt pendingWhileDisconnectedWorker 2).1
      rfl,
    (C6_empty_host_no_connection_attempt sampleConnectedWorker 2).2 true⟩

/-- An owner handle whose worker is connected. -/
def sampleConnectedClient : UMQTTClient :=
  { UMQTTClient.new with
      Broker := "127.0.0.1", worker := some sampleConnectedWorker }

/-- C7: the claim (and MQTTClientWorker.h line 155: the Notify helpers
"must only be called from the worker thread") is contradicted by the code:
`FMQTTWorker::Disconnect` — reached synchronously from the owner-context
call `UMQTTClient::Disconnect` (MQTTClient.cpp lines 106-112) — itself
invokes `NotifyDisconnected` at line 425.  In the model the notifications
returned by `Disconnect` are exactly those emitted inside the owner-context
call, and on a connected client that list is non-empty. -/
theorem C7_owner_context_disconnect_invokes_notify :
    (sampleConnectedWorker.Disconnect false).2 =
      [Notification.Disconnected "Client requested disconnect"] ∧
    (sampleConnectedClient.Disconnect false).2 =
      [Notification.Disconnected "Client requested disconnect"] := by
  constructor <;> decide

/-- C8: when no worker instance exists (`Impl && Impl->Worker` false: before
any `Connect`, or after `BeginDestroy` has reset the PIMPL), the owner-context
calls `Publish`, `Subscribe` and `Unsubscribe` touch no queue or state and
return false; and `BeginDestroy` leaves every client with no worker, so the
same holds for any call made after destruction has begun. -/
theorem C8_calls_without_worker_return_false (c : UMQTTClient)
    (h : c.worker = none) (Topic Payload TopicFilter : String) (QoS : Int)
    (bRetain : Bool) :
    c.Publish Topic Payload QoS bRetain = (c, false) ∧
    c.Subscribe TopicFilter QoS = (c, false) ∧
    c.Unsubscribe TopicFilter = (c, false) ∧
    (∀ d : UMQTTClient,
      d.BeginDestroy.worker = none ∧
      d.BeginDestroy.Publish Topic Payload QoS bRetain =
        (d.BeginDestroy, false) ∧
      d.BeginDestroy.Subscribe TopicFilter QoS = (d.BeginDestroy, false) ∧
      d.BeginDestroy.Unsubscribe TopicFilter = (d.BeginDestroy, false)) := by
  refine ⟨?_, ?_, ?_, ?_⟩
  · simp [UMQTTClient.Publish, h]
  · simp [UMQTTClient.Subscribe, h]
  · simp [UMQTTClient.Unsubscribe, h]
  · intro d
    exact ⟨rfl, rfl, rfl, rfl⟩

theorem C8_calls_without_worker_return_false_witness :
    UMQTTClient.new.Publish "sensors/temp" "21.5" 0 false =
      (UMQTTClient.new, false) ∧
    UMQTTClient.new.Subscribe "sensors/#" 1 = (UMQTTClient.new, false) ∧
    UMQTTClient.new.Unsubscribe "sensors/#" = (UMQTTClient.new, false) ∧
    (∀ d : UMQTTClient,
      d.BeginDestroy.worker = none ∧
      d.BeginDestroy.Publish "sensors/temp" "21.5" 0 false =
        (d.BeginDestroy, false) ∧
      d.BeginDestroy.Subscribe "sensors/#" 1 = (d.BeginDestroy, false) ∧
      d.BeginDestroy.Unsubscribe "sensors/#" = (d.BeginDestroy, false)) :=
  C8_calls_without_worker_return_false UMQTTClient.new rfl
    "sensors/temp" "21.5" "sensors/#" 0 false

/-- C9: `Disconnect` with `bForce = true` is observably identical to
`Disconnect` with `bForce = false`, at the worker and at the owner handle:
the resulting state and the emitted notifications are equal, because the
`bForce` parameter is never read (MQTTClient.cpp lines 414-430). -/
theorem C9_force_flag_has_no_effect (s : FMQTTWorker) (c : UMQTTClient) :
    s.Disconnect true = s.Disconnect false ∧
    c.Disconnect true = c.Disconnect false := by
  refine ⟨rfl, ?_⟩
  cases hc : c.worker with
  | none => simp [UMQTTClient.Disconnect, hc]
  | some w =>
      simp [UMQTTClient.Disconnect, hc]
      exact ⟨rfl, rfl⟩

/-- C10: for every integer QoS value — including values outside {0, 1, 2} —
`Publish` and `Subscribe` enqueue the request with the QoS stored unchanged
(no clamping, validation or rejection) and return true; at the owner handle
both return true whenever a worker exists. -/
theorem C10_qos_stored_unchanged (s : FMQTTWorker) (c : UMQTTClient)
    (hw : c.worker.isSome = true) (Topic Payload TopicFilter : String)
    (QoS : Int) (bRetain : Bool) :
    (s.Publish Topic Payload QoS bRetain).1.OutgoingMessages =
      s.OutgoingMessages ++ [⟨Topic, Payload, QoS, bRetain⟩] ∧
    (s.Publish Topic Payload QoS bRetain).2 = true ∧
    (s.Subscribe TopicFilter QoS).1.SubscriptionRequests =
      s.SubscriptionRequests ++ [⟨TopicFilter, QoS, true⟩] ∧
    (s.Subscribe TopicFilter QoS).2 = true ∧
    (c.Publish Topic Payload QoS bRetain).2 = true ∧
    (c.Subscribe TopicFilter QoS).2 = true := by
  refine ⟨rfl, rfl, rfl, rfl, ?_, ?_⟩ <;>
  · cases hc : c.worker with
    | none => rw [hc] at hw; cases hw
    | some w => simp [UMQTTClient.Publish, UMQTTClient.Subscribe, hc,
        FMQTTWorker.Publish, FMQTTWorker.Subscribe]

theorem C10_qos_stored_unchanged_witness :
    (sampleConnectedWorker.Publish "t" "p" (-3) false).1.OutgoingMessages =
      sampleConnectedWorker.OutgoingMessages ++ [⟨"t", "p", -3, false⟩] ∧
    (sampleConnectedWorker.Publish "t" "p" (-3) false).2 = true ∧
    (sampleConnectedWorker.Subscribe "f" (-3)).1.SubscriptionRequests =
      sampleConnectedWorker.SubscriptionRequests ++ [⟨"f", -3, true⟩] ∧
    (sampleConnectedWorker.Subscribe "f" (-3)).2 = true ∧
    (sampleConnectedClient.Publish "t" "p" (-3) false).2 = true ∧
    (sampleConnectedClient.Subscribe "f" (-3)).2 = true :=
  C10_qos_stored_unchanged sampleConnectedWorker sampleConnectedClient rfl
    "t" "p" "f" (-3) false
